import Mathlib

/-! # Rockchip power HAL: capability queries and governor commands

A shallow embedding of `src/Power.cpp` (namespace
`aidl::android::hardware::power::impl::rockchip`).

* The object state is the pair of cached support masks of `class Power`.
* The environment (`World`) carries the value of the system property
  `ro.boot.hardware`, the two cpufreq governor channels, the log, and ghost
  traces that record each `property_get`, each `sysfs_write` invocation and
  each `open(2)` and `write(2)` that was performed.
* `Mode` and `Boost` are `enum class ... : int32_t` of the AIDL power interface;
  they are embedded as integers so that values outside the enumerants exist.
* `int` is embedded as `Int`; `&` is two's complement conjunction `Int.land`,
  which agrees with the machine operation for every signed width that holds
  the constants involved (all below `2 ^ 15`).
-/

namespace Rockchip

/-! ## External constants and types -/

/-- Path of the governor knob of CPU cluster 0. -/
def CPU_CLUST0_GOV_PATH : String := "/sys/devices/system/cpu/cpufreq/policy0/scaling_governor"

/-- Path of the governor knob of CPU cluster 1. -/
def CPU_CLUST1_GOV_PATH : String := "/sys/devices/system/cpu/cpufreq/policy4/scaling_governor"

/-- Size of a property value buffer, from `cutils/properties.h`. -/
def PROPERTY_VALUE_MAX : Nat := 92

/-- Values of `enum class Mode : int32_t` (any 32 bit integer can be passed over binder). -/
abbrev Mode := Int

/-- Values of `enum class Boost : int32_t`. -/
abbrev Boost := Int

namespace Mode
abbrev DOUBLE_TAP_TO_WAKE : Mode := 0
abbrev LOW_POWER : Mode := 1
abbrev SUSTAINED_PERFORMANCE : Mode := 2
abbrev FIXED_PERFORMANCE : Mode := 3
abbrev VR : Mode := 4
abbrev LAUNCH : Mode := 5
abbrev EXPENSIVE_RENDERING : Mode := 6
abbrev INTERACTIVE : Mode := 7
abbrev DEVICE_IDLE : Mode := 8
abbrev DISPLAY_INACTIVE : Mode := 9
abbrev AUDIO_STREAMING_LOW_LATENCY : Mode := 10
abbrev CAMERA_STREAMING_SECURE : Mode := 11
abbrev CAMERA_STREAMING_LOW : Mode := 12
abbrev CAMERA_STREAMING_MID : Mode := 13
abbrev CAMERA_STREAMING_HIGH : Mode := 14
end Mode

namespace Boost
abbrev INTERACTION : Boost := 0
abbrev DISPLAY_UPDATE_IMMINENT : Boost := 1
abbrev ML_ACC : Boost := 2
abbrev AUDIO_LAUNCH : Boost := 3
abbrev CAMERA_LAUNCH : Boost := 4
abbrev CAMERA_SHOT : Boost := 5
end Boost

/-- The status object handed back over binder; only `ok` is ever built in `Power.cpp`. -/
inductive ScopedAStatus
  | ok
  | fromExceptionCode (code : Int)
deriving DecidableEq, Repr

/-! ## Environment -/

/-- Severity of a log line (`ALOGV` / `LOG(VERBOSE)`, `LOG(INFO)`, `ALOGE`). -/
inductive LogLevel
  | verbose
  | info
  | error
deriving DecidableEq, Repr

/-- One emitted log line. -/
structure LogEntry where
  level : LogLevel
  text : String
deriving DecidableEq, Repr

/-- How a channel path answers `access`, `open` and `write`; the failing cases carry the
`strerror` text of the `errno` they set. -/
inductive Access
  | missing
  | openFails (err : String)
  | writeFails (err : String)
  | writable
deriving DecidableEq, Repr

/-- A control channel: its reachability and the governor name it currently holds. A sysfs
attribute keeps the last value stored into it. -/
structure Channel where
  access : Access
  value : String
deriving DecidableEq, Repr

/-- Everything outside the `Power` object that `Power.cpp` reads or changes. -/
structure World where
  /-- bytes of the property `ro.boot.hardware` at this moment (empty when unset) -/
  hardware : List Nat
  /-- the file system, per path -/
  channel : String → Channel
  /-- log lines emitted so far -/
  log : List LogEntry
  /-- ghost: number of `property_get` calls so far -/
  propertyReads : Nat
  /-- ghost: every `sysfs_write path s` invocation so far, in order -/
  requests : List (String × String)
  /-- ghost: every `write(fd, s, strlen s)` performed so far, in order -/
  writes : List (String × String)
  /-- ghost: every path handed to `open(path, O_WRONLY)` so far, in order -/
  opens : List String

/-- The cached members of `class Power`. -/
structure Power where
  _mode_support_int : Int
  _boost_support_int : Int
deriving DecidableEq, Repr

/-- What a command (`setMode`, `setBoost`) leaves behind. -/
structure CommandResult where
  status : ScopedAStatus
  self : Power
  world : World

/-- What a query (`isModeSupported`, `isBoostSupported`) leaves behind; `_aidl_return` is the
out-parameter. -/
structure QueryResult where
  status : ScopedAStatus
  _aidl_return : Bool
  self : Power
  world : World

/-! ## C library and logging primitives -/

/-- Bytes of an ASCII literal, without the terminating NUL. -/
def cstr (s : String) : List Nat := s.toList.map Char.toNat

/-- The C string held in a byte sequence: everything before the first NUL. -/
def cstring (bytes : List Nat) : List Nat := bytes.takeWhile (fun c => c ≠ 0)

/-- Embedding of `property_get(key, buf, "")` on a zeroed buffer of `PROPERTY_VALUE_MAX` bytes:
the value, cut to `PROPERTY_VALUE_MAX - 1` bytes, followed by NULs. -/
def property_get (value : List Nat) : List Nat :=
  let v := (cstring value).take (PROPERTY_VALUE_MAX - 1)
  v ++ List.replicate (PROPERTY_VALUE_MAX - v.length) 0

/-- Embedding of `strncmp(s1, s2, n)`; bytes past the end of a list read as NUL. -/
def strncmp : List Nat → List Nat → Nat → Int
  | _, _, 0 => 0
  | s1, s2, n + 1 =>
    let c1 := s1.headD 0
    let c2 := s2.headD 0
    if c1 ≠ c2 then (c1 : Int) - (c2 : Int)
    else if c1 = 0 then 0
    else strncmp s1.tail s2.tail n

/-- Conversion of an `int` to `bool`. -/
def toBool (x : Int) : Bool := decide (x ≠ 0)

/-- Append one line to the log. -/
def World.emit (w : World) (level : LogLevel) (text : String) : World :=
  { w with log := w.log ++ [{ level := level, text := text }] }

/-- A successful `write` stores the string into the attribute behind `path`. -/
def World.store (w : World) (path s : String) : World :=
  { w with channel := fun p => if p = path then { w.channel p with value := s } else w.channel p }

/-! ## The functions of `Power.cpp` -/

/-- Embedding of `Power::getSupportedPlatform`. -/
def Power.getSupportedPlatform (self : Power) (w : World) : Power × World :=
  if self._mode_support_int < 0 then
    let platform := property_get w.hardware
    let w := { w with propertyReads := w.propertyReads + 1 }
    if strncmp platform (cstr "rk3399") PROPERTY_VALUE_MAX = 0 then
      ({ _mode_support_int := 0x3FFF, _boost_support_int := 0x003F }, w)
    else (self, w)
  else (self, w)

/-- Embedding of `sysfs_write`. -/
def sysfs_write (path s : String) (w : World) : World :=
  let w := { w with requests := w.requests ++ [(path, s)] }
  match (w.channel path).access with
  | Access.missing => w
  | Access.openFails err =>
    let w := { w with opens := w.opens ++ [path] }
    w.emit LogLevel.error ("Error opening " ++ path ++ ": " ++ err.take 79 ++ "\n")
  | Access.writeFails err =>
    let w := { w with opens := w.opens ++ [path] }
    let w := { w with writes := w.writes ++ [(path, s)] }
    w.emit LogLevel.error ("Error writing to " ++ path ++ ": " ++ err.take 79 ++ "\n")
  | Access.writable =>
    let w := { w with opens := w.opens ++ [path] }
    let w := { w with writes := w.writes ++ [(path, s)] }
    w.store path s

/-- Embedding of `performance_boost`. -/
def performance_boost (on_ : Bool) (w : World) : World :=
  let w := w.emit LogLevel.verbose "RK performance_boost Entered!"
  let w := sysfs_write CPU_CLUST0_GOV_PATH (if on_ then "performance" else "interactive") w
  sysfs_write CPU_CLUST1_GOV_PATH (if on_ then "performance" else "interactive") w

/-- Embedding of `powersave`. -/
def powersave (on_ : Bool) (w : World) : World :=
  let w := w.emit LogLevel.verbose "RK powersave Entered!"
  let w := sysfs_write CPU_CLUST0_GOV_PATH (if on_ then "powersave" else "interactive") w
  sysfs_write CPU_CLUST1_GOV_PATH (if on_ then "powersave" else "interactive") w

/-- Embedding of `interactive`. -/
def interactive (w : World) : World :=
  let w := w.emit LogLevel.verbose "RK interactive Entered!"
  let w := sysfs_write CPU_CLUST0_GOV_PATH "interactive" w
  sysfs_write CPU_CLUST1_GOV_PATH "interactive" w

/-- Embedding of `Power::setMode`. -/
def Power.setMode (self : Power) (type : Mode) (enabled : Bool) (w : World) : CommandResult :=
  let w := w.emit LogLevel.verbose
    ("Power setMode: " ++ toString type ++ " to: " ++ (if enabled then "1" else "0"))
  let w :=
    if type = Mode.DOUBLE_TAP_TO_WAKE then w
    else if type = Mode.LOW_POWER then powersave enabled w
    else if type = Mode.SUSTAINED_PERFORMANCE then w
    else if type = Mode.FIXED_PERFORMANCE then performance_boost enabled w
    else if type = Mode.VR then w
    else if type = Mode.LAUNCH then performance_boost enabled w
    else if type = Mode.EXPENSIVE_RENDERING then w
    else if type = Mode.INTERACTIVE then (if enabled then interactive w else w)
    else if type = Mode.DEVICE_IDLE then powersave enabled w
    else if type = Mode.DISPLAY_INACTIVE then w
    else if type = Mode.AUDIO_STREAMING_LOW_LATENCY then w
    else if type = Mode.CAMERA_STREAMING_SECURE then w
    else if type = Mode.CAMERA_STREAMING_LOW then w
    else if type = Mode.CAMERA_STREAMING_MID then w
    else if type = Mode.CAMERA_STREAMING_HIGH then w
    else w
  { status := ScopedAStatus.ok, self := self, world := w }

/-- Embedding of `Power::isModeSupported`. -/
def Power.isModeSupported (self : Power) (type : Mode) (w : World) : QueryResult :=
  let w := w.emit LogLevel.info ("Power isModeSupported: " ++ toString type)
  let detected := self.getSupportedPlatform w
  let self := detected.1
  let w := detected.2
  let ret : Bool :=
    if type = Mode.DOUBLE_TAP_TO_WAKE then toBool (Int.land 0x4000 self._mode_support_int)
    else if type = Mode.LOW_POWER then toBool (Int.land 0x2000 self._mode_support_int)
    else if type = Mode.SUSTAINED_PERFORMANCE then toBool (Int.land 0x1000 self._mode_support_int)
    else if type = Mode.FIXED_PERFORMANCE then toBool (Int.land 0x0800 self._mode_support_int)
    else if type = Mode.VR then toBool (Int.land 0x0400 self._mode_support_int)
    else if type = Mode.LAUNCH then toBool (Int.land 0x0200 self._mode_support_int)
    else if type = Mode.EXPENSIVE_RENDERING then toBool (Int.land 0x0100 self._mode_support_int)
    else if type = Mode.INTERACTIVE then toBool (Int.land 0x0080 self._mode_support_int)
    else if type = Mode.DEVICE_IDLE then toBool (Int.land 0x0040 self._mode_support_int)
    else if type = Mode.DISPLAY_INACTIVE then toBool (Int.land 0x0020 self._mode_support_int)
    else if type = Mode.AUDIO_STREAMING_LOW_LATENCY then
      toBool (Int.land 0x0010 self._mode_support_int)
    else if type = Mode.CAMERA_STREAMING_SECURE then toBool (Int.land 0x0008 self._mode_support_int)
    else if type = Mode.CAMERA_STREAMING_LOW then toBool (Int.land 0x0004 self._mode_support_int)
    else if type = Mode.CAMERA_STREAMING_MID then toBool (Int.land 0x0002 self._mode_support_int)
    else if type = Mode.CAMERA_STREAMING_HIGH then toBool (Int.land 0x0001 self._mode_support_int)
    else false
  { status := ScopedAStatus.ok, _aidl_return := ret, self := self, world := w }

/-- Embedding of `Power::setBoost`: every case label falls through to the empty default. -/
def Power.setBoost (self : Power) (type : Boost) (durationMs : Int) (w : World) : CommandResult :=
  let w := w.emit LogLevel.verbose
    ("Power setBoost: " ++ toString type ++ ", duration: " ++ toString durationMs)
  { status := ScopedAStatus.ok, self := self, world := w }

/-- Embedding of `Power::isBoostSupported`. -/
def Power.isBoostSupported (self : Power) (type : Boost) (w : World) : QueryResult :=
  let w := w.emit LogLevel.info ("Power isBoostSupported: " ++ toString type)
  let detected := self.getSupportedPlatform w
  let self := detected.1
  let w := detected.2
  let ret : Bool :=
    if type = Boost.INTERACTION then toBool (Int.land 0x0020 self._boost_support_int)
    else if type = Boost.DISPLAY_UPDATE_IMMINENT then toBool (Int.land 0x0010 self._boost_support_int)
    else if type = Boost.ML_ACC then toBool (Int.land 0x0008 self._boost_support_int)
    else if type = Boost.AUDIO_LAUNCH then toBool (Int.land 0x0004 self._boost_support_int)
    else if type = Boost.CAMERA_LAUNCH then toBool (Int.land 0x0002 self._boost_support_int)
    else if type = Boost.CAMERA_SHOT then toBool (Int.land 0x0001 self._boost_support_int)
    else false
  { status := ScopedAStatus.ok, _aidl_return := ret, self := self, world := w }

/-! ## Vocabulary for stating the properties -/

/-- The path can be opened for writing, so that `write` is reached. -/
def Access.opens : Access → Bool
  | Access.missing => false
  | Access.openFails _ => false
  | Access.writeFails _ => true
  | Access.writable => true

/-- The policy table of the specification, section 4.4: the value a mode request sends to all
channels, or `none` for a no-op. Written from the table, not from the code. -/
def policyValue (type : Mode) (enabled : Bool) : Option String :=
  if type = Mode.LOW_POWER ∨ type = Mode.DEVICE_IDLE then
    some (if enabled then "powersave" else "interactive")
  else if type = Mode.FIXED_PERFORMANCE ∨ type = Mode.LAUNCH then
    some (if enabled then "performance" else "interactive")
  else if type = Mode.INTERACTIVE then
    (if enabled then some "interactive" else none)
  else none

/-- The writes of the policy table: the value goes to both cluster channels, cluster 0 first. -/
def policyWrites (type : Mode) (enabled : Bool) : List (String × String) :=
  match policyValue type enabled with
  | some v => [(CPU_CLUST0_GOV_PATH, v), (CPU_CLUST1_GOV_PATH, v)]
  | none => []

/-- Modelled from the spec: the freshly constructed object. Its member initializers are in
`Power.h`, which is not among the sources; the spec says only that the unresolved sentinel is
negative. The value `-1` is taken for concrete evaluations, and the general statements
quantify over every negative sentinel. -/
def Power.unresolved : Power := { _mode_support_int := -1, _boost_support_int := -1 }

/-- A world at process start in which the two cluster knobs exist, are writable and hold
`schedutil`, nothing else exists, and the property has the given value. -/
def bootWorld (hardware : List Nat) : World :=
  { hardware := hardware
    channel := fun p =>
      if p = CPU_CLUST0_GOV_PATH ∨ p = CPU_CLUST1_GOV_PATH then
        { access := Access.writable, value := "schedutil" }
      else { access := Access.missing, value := "" }
    log := []
    propertyReads := 0
    requests := []
    writes := []
    opens := [] }

/-- The four calls of the binder interface. -/
inductive Call
  | setMode (type : Mode) (enabled : Bool)
  | isModeSupported (type : Mode)
  | setBoost (type : Boost) (durationMs : Int)
  | isBoostSupported (type : Boost)
deriving DecidableEq, Repr

/-- What the caller observes of one call: the status and, for a query, the answer. -/
structure Reply where
  status : ScopedAStatus
  answer : Option Bool
deriving DecidableEq, Repr

/-- Serve one call. -/
def Power.serve (self : Power) (c : Call) (w : World) : Reply × Power × World :=
  match c with
  | Call.setMode type enabled =>
    let r := self.setMode type enabled w
    ({ status := r.status, answer := none }, r.self, r.world)
  | Call.isModeSupported type =>
    let r := self.isModeSupported type w
    ({ status := r.status, answer := some r._aidl_return }, r.self, r.world)
  | Call.setBoost type durationMs =>
    let r := self.setBoost type durationMs w
    ({ status := r.status, answer := none }, r.self, r.world)
  | Call.isBoostSupported type =>
    let r := self.isBoostSupported type w
    ({ status := r.status, answer := some r._aidl_return }, r.self, r.world)

/-- Serve a sequence of calls; each call is paired with the value the property
`ro.boot.hardware` has when that call arrives. -/
def Power.run (self : Power) (w : World) : List (List Nat × Call) → List Reply × Power × World
  | [] => ([], self, w)
  | (hw, c) :: rest =>
    let r := self.serve c { w with hardware := hw }
    let rs := r.2.1.run r.2.2 rest
    (r.1 :: rs.1, rs.2.1, rs.2.2)

/-- Serve a sequence of `setMode` calls, each given as the mode and the flag, in order. -/
def Power.setModes (self : Power) (w : World) : List (Mode × Bool) → World
  | [] => w
  | (type, enabled) :: rest =>
    (self.setMode type enabled w).self.setModes (self.setMode type enabled w).world rest

/-- The value sent by the last call of a sequence that has a writing rule in the policy table
(LOW_POWER, DEVICE_IDLE, FIXED_PERFORMANCE or LAUNCH with either flag, INTERACTIVE enabled);
`none` when no call of the sequence has one. -/
def lastWritten (calls : List (Mode × Bool)) : Option String :=
  (calls.filterMap (fun c => policyValue c.1 c.2)).getLast?

/-- Two worlds agree on the control surface: the channels and the traces of `sysfs_write`,
`open` and `write`. They may differ in the property, the read count and the log. -/
def World.sameSurface (w w' : World) : Prop :=
  w.channel = w'.channel ∧ w.requests = w'.requests ∧ w.opens = w'.opens ∧ w.writes = w'.writes

/-! ## Auxiliary facts -/


theorem nat_land_two_pow_ne_zero (j n : Nat) : (2 ^ j &&& n ≠ 0) ↔ n.testBit j = true := by
  rw [Nat.and_comm, Nat.and_two_pow]
  cases h : n.testBit j <;> simp

theorem nat_ldiff_two_pow_ne_zero (j n : Nat) :
    (Nat.ldiff (2 ^ j) n ≠ 0) ↔ n.testBit j = false := by
  constructor
  · intro h
    by_contra hb
    apply h
    apply Nat.eq_of_testBit_eq
    intro i
    rw [Nat.testBit_ldiff, Nat.testBit_two_pow]
    by_cases hij : j = i
    · subst hij; simp at hb; simp [hb]
    · simp [hij]
  · intro hb h
    have := Nat.testBit_ldiff (2 ^ j) n j
    rw [h, hb, Nat.testBit_two_pow] at this
    simp at this

/-- Testing one bit with `&`: `2 ^ j & k` is nonzero exactly when bit `j` of `k` is set. -/
theorem toBool_land_two_pow (j : Nat) (k : Int) :
    toBool (Int.land ((2 ^ j : Nat) : Int) k) = k.testBit j := by
  unfold toBool
  cases k with
  | ofNat n =>
    show decide (((2 ^ j &&& n : Nat) : Int) ≠ 0) = n.testBit j
    have := nat_land_two_pow_ne_zero j n
    cases hb : n.testBit j <;> simp_all
  | negSucc n =>
    show decide (((Nat.ldiff (2 ^ j) n : Nat) : Int) ≠ 0) = !n.testBit j
    have := nat_ldiff_two_pow_ne_zero j n
    cases hb : n.testBit j <;> simp_all

/-- The same fact, read from the bit to the test. -/
theorem testBit_eq_toBool_land (j : Nat) (k : Int) :
    k.testBit j = toBool (Int.land ((2 ^ j : Nat) : Int) k) :=
  (toBool_land_two_pow j k).symm

theorem head_replicate_zero (k : Nat) : (List.replicate k 0).head?.getD 0 = 0 := by
  cases k <;> rfl

/-- On NUL-free strings, the first one padded with NULs, `strncmp` with a bound beyond the
second string returns `0` exactly on equal strings. -/
theorem strncmp_eq_zero_iff (a : List Nat) :
    ∀ (b : List Nat) (n k : Nat), (∀ c ∈ a, c ≠ 0) → (∀ c ∈ b, c ≠ 0) → b.length < n →
      (strncmp (a ++ List.replicate k 0) b n = 0 ↔ a = b) := by
  induction a with
  | nil =>
    intro b n k _ hb hn
    obtain ⟨m, rfl⟩ : ∃ m, n = m + 1 := ⟨n - 1, by omega⟩
    cases b with
    | nil => simp [strncmp, head_replicate_zero]
    | cons y bs =>
      have hy : y ≠ 0 := hb y (by simp)
      have hy' : ¬ (0 = y) := fun h => hy h.symm
      simp [strncmp, head_replicate_zero, hy, hy']
  | cons x as ih =>
    intro b n k ha hb hn
    obtain ⟨m, rfl⟩ : ∃ m, n = m + 1 := ⟨n - 1, by omega⟩
    have hx : x ≠ 0 := ha x (by simp)
    cases b with
    | nil => simp [strncmp, hx]
    | cons y bs =>
      by_cases hxy : x = y
      · subst hxy
        have := ih bs m k (fun c hc => ha c (by simp [hc])) (fun c hc => hb c (by simp [hc]))
          (by simpa using hn)
        simp [strncmp, hx, this]
      · have : (x : Int) - (y : Int) ≠ 0 := by omega
        simp [strncmp, hxy, this]

theorem cstring_ne_zero (v : List Nat) : ∀ c ∈ cstring v, c ≠ 0 := by
  intro c hc
  have := List.mem_takeWhile_imp hc
  simpa using this

/-- The comparison in `getSupportedPlatform` succeeds exactly when the C string of the
property value is `rk3399`. -/
theorem strncmp_property_get (v : List Nat) :
    strncmp (property_get v) (cstr "rk3399") PROPERTY_VALUE_MAX = 0 ↔
      cstring v = cstr "rk3399" := by
  unfold property_get
  have h6 : (cstr "rk3399").length = 6 := by decide
  have hnz : ∀ c ∈ cstr "rk3399", c ≠ 0 := by decide
  have htake : ∀ c ∈ (cstring v).take (PROPERTY_VALUE_MAX - 1), c ≠ 0 :=
    fun c hc => cstring_ne_zero v c (List.mem_of_mem_take hc)
  have key := strncmp_eq_zero_iff ((cstring v).take (PROPERTY_VALUE_MAX - 1)) (cstr "rk3399")
    PROPERTY_VALUE_MAX (PROPERTY_VALUE_MAX - ((cstring v).take (PROPERTY_VALUE_MAX - 1)).length)
    htake hnz (by rw [h6]; decide)
  simp only [] at key ⊢
  rw [key]
  constructor
  · intro h
    have hl : ((cstring v).take (PROPERTY_VALUE_MAX - 1)).length = 6 := by rw [h, h6]
    have hlen : (cstring v).length ≤ PROPERTY_VALUE_MAX - 1 := by
      rw [List.length_take] at hl
      have : PROPERTY_VALUE_MAX - 1 = 91 := by decide
      omega
    rw [List.take_of_length_le hlen] at h
    exact h
  · intro h
    rw [h]
    decide


@[simp] theorem emit_hardware (w : World) (l : LogLevel) (t : String) :
    (w.emit l t).hardware = w.hardware := rfl

@[simp] theorem emit_channel (w : World) (l : LogLevel) (t : String) :
    (w.emit l t).channel = w.channel := rfl

@[simp] theorem emit_propertyReads (w : World) (l : LogLevel) (t : String) :
    (w.emit l t).propertyReads = w.propertyReads := rfl

@[simp] theorem emit_requests (w : World) (l : LogLevel) (t : String) :
    (w.emit l t).requests = w.requests := rfl

@[simp] theorem emit_writes (w : World) (l : LogLevel) (t : String) :
    (w.emit l t).writes = w.writes := rfl

/-- With a resolved mode mask, detection does nothing. -/
theorem getSupportedPlatform_resolved (self : Power) (w : World)
    (h : 0 ≤ self._mode_support_int) : self.getSupportedPlatform w = (self, w) := by
  unfold Power.getSupportedPlatform
  rw [if_neg (by omega)]

/-- With an unresolved mode mask and another identifier, detection reads the property and
keeps the masks. -/
theorem getSupportedPlatform_unrecognized (self : Power) (w : World)
    (h : self._mode_support_int < 0) (hp : cstring w.hardware ≠ cstr "rk3399") :
    self.getSupportedPlatform w = (self, { w with propertyReads := w.propertyReads + 1 }) := by
  unfold Power.getSupportedPlatform
  rw [if_pos h]
  simp only []
  rw [if_neg (fun hc => hp ((strncmp_property_get w.hardware).1 hc))]

/-- With an unresolved mode mask and the identifier `rk3399`, detection reads the property and
stores the two masks of that platform. -/
theorem getSupportedPlatform_rk3399 (self : Power) (w : World)
    (h : self._mode_support_int < 0) (hp : cstring w.hardware = cstr "rk3399") :
    self.getSupportedPlatform w =
      ({ _mode_support_int := 0x3FFF, _boost_support_int := 0x003F },
        { w with propertyReads := w.propertyReads + 1 }) := by
  unfold Power.getSupportedPlatform
  rw [if_pos h]
  simp only []
  rw [if_pos ((strncmp_property_get w.hardware).2 hp)]

/-- The masks detection leaves do not depend on the log. -/
theorem getSupportedPlatform_emit_fst (self : Power) (w : World) (l : LogLevel) (t : String) :
    (self.getSupportedPlatform (w.emit l t)).1 = (self.getSupportedPlatform w).1 := by
  unfold Power.getSupportedPlatform
  simp only [emit_hardware]
  split <;> [split; skip] <;> rfl

/-- The object a mode query leaves is the one detection leaves. -/
theorem isModeSupported_self (self : Power) (type : Mode) (w : World) :
    (self.isModeSupported type w).self = (self.getSupportedPlatform w).1 := by
  unfold Power.isModeSupported
  simp only []
  exact getSupportedPlatform_emit_fst self w _ _

/-- The object a boost query leaves is the one detection leaves. -/
theorem isBoostSupported_self (self : Power) (type : Boost) (w : World) :
    (self.isBoostSupported type w).self = (self.getSupportedPlatform w).1 := by
  unfold Power.isBoostSupported
  simp only []
  exact getSupportedPlatform_emit_fst self w _ _

/-- A defined mode of ordinal `i` reports bit `14 - i` of the mode mask left by detection. -/
theorem isModeSupported_defined (self : Power) (w : World) (i : Nat) (hi : i ≤ 14) :
    (self.isModeSupported (i : Int) w)._aidl_return =
      (self.getSupportedPlatform w).1._mode_support_int.testBit (14 - i) := by
  rw [← isModeSupported_self self (i : Int) w]
  unfold Power.isModeSupported
  simp only []
  generalize (self.getSupportedPlatform _).1._mode_support_int = k
  interval_cases i <;> simp <;> (rw [testBit_eq_toBool_land]; rfl)

/-- A value outside the enumeration takes the default branch of the mode query. -/
theorem isModeSupported_undefined (self : Power) (w : World) (type : Int)
    (h : type < 0 ∨ 14 < type) : (self.isModeSupported type w)._aidl_return = false := by
  have hne : ∀ j : Int, 0 ≤ j → j ≤ 14 → ¬ type = j := by intro j h0 h1; omega
  unfold Power.isModeSupported
  simp only []
  rw [if_neg (hne 0 (by decide) (by decide)), if_neg (hne 1 (by decide) (by decide)),
    if_neg (hne 2 (by decide) (by decide)), if_neg (hne 3 (by decide) (by decide)),
    if_neg (hne 4 (by decide) (by decide)), if_neg (hne 5 (by decide) (by decide)),
    if_neg (hne 6 (by decide) (by decide)), if_neg (hne 7 (by decide) (by decide)),
    if_neg (hne 8 (by decide) (by decide)), if_neg (hne 9 (by decide) (by decide)),
    if_neg (hne 10 (by decide) (by decide)), if_neg (hne 11 (by decide) (by decide)),
    if_neg (hne 12 (by decide) (by decide)), if_neg (hne 13 (by decide) (by decide)),
    if_neg (hne 14 (by decide) (by decide))]

/-- A real boost of ordinal `i` reports bit `5 - i` of the boost mask left by detection. -/
theorem isBoostSupported_defined (self : Power) (w : World) (i : Nat) (hi : i ≤ 5) :
    (self.isBoostSupported (i : Int) w)._aidl_return =
      (self.getSupportedPlatform w).1._boost_support_int.testBit (5 - i) := by
  rw [← isBoostSupported_self self (i : Int) w]
  unfold Power.isBoostSupported
  simp only []
  generalize (self.getSupportedPlatform _).1._boost_support_int = k
  interval_cases i <;> simp <;> (rw [testBit_eq_toBool_land]; rfl)

/-- A value outside the enumeration takes the default branch of the boost query. -/
theorem isBoostSupported_undefined (self : Power) (w : World) (type : Int)
    (h : type < 0 ∨ 5 < type) : (self.isBoostSupported type w)._aidl_return = false := by
  have hne : ∀ j : Int, 0 ≤ j → j ≤ 5 → ¬ type = j := by intro j h0 h1; omega
  unfold Power.isBoostSupported
  simp only []
  rw [if_neg (hne 0 (by decide) (by decide)), if_neg (hne 1 (by decide) (by decide)),
    if_neg (hne 2 (by decide) (by decide)), if_neg (hne 3 (by decide) (by decide)),
    if_neg (hne 4 (by decide) (by decide)), if_neg (hne 5 (by decide) (by decide))]


theorem clust_paths_ne : CPU_CLUST0_GOV_PATH ≠ CPU_CLUST1_GOV_PATH := by decide

@[simp] theorem sysfs_write_hardware (path s : String) (w : World) :
    (sysfs_write path s w).hardware = w.hardware := by
  unfold sysfs_write; simp only []; split <;> rfl

@[simp] theorem sysfs_write_propertyReads (path s : String) (w : World) :
    (sysfs_write path s w).propertyReads = w.propertyReads := by
  unfold sysfs_write; simp only []; split <;> rfl

/-- Every invocation of `sysfs_write` is recorded as one request. -/
@[simp] theorem sysfs_write_requests (path s : String) (w : World) :
    (sysfs_write path s w).requests = w.requests ++ [(path, s)] := by
  unfold sysfs_write; simp only []; split <;> rfl

/-- The call reaches `write` exactly when the path exists and opens. -/
theorem sysfs_write_writes (path s : String) (w : World) :
    (sysfs_write path s w).writes =
      w.writes ++ (if (w.channel path).access.opens then [(path, s)] else []) := by
  unfold sysfs_write; simp only []
  split <;> rename_i h <;> simp [h, Access.opens, World.emit, World.store]

/-- The reachability of every path is left as it was. -/
@[simp] theorem sysfs_write_access (path s : String) (w : World) (q : String) :
    ((sysfs_write path s w).channel q).access = (w.channel q).access := by
  unfold sysfs_write; simp only []
  split <;> simp [World.emit, World.store]
  split <;> rfl

/-- The value held by a path changes only for the written path, and only when it is writable. -/
theorem sysfs_write_value (path s : String) (w : World) (q : String) :
    ((sysfs_write path s w).channel q).value =
      if q = path ∧ (w.channel path).access = Access.writable then s
      else (w.channel q).value := by
  unfold sysfs_write; simp only []
  split <;> rename_i h <;> simp [h, World.emit, World.store]
  split <;> rfl

/-- The three governor helpers are two `sysfs_write` calls behind one verbose line. -/
theorem powersave_eq (b : Bool) (w : World) :
    powersave b w =
      sysfs_write CPU_CLUST1_GOV_PATH (if b then "powersave" else "interactive")
        (sysfs_write CPU_CLUST0_GOV_PATH (if b then "powersave" else "interactive")
          (w.emit LogLevel.verbose "RK powersave Entered!")) := rfl

theorem performance_boost_eq (b : Bool) (w : World) :
    performance_boost b w =
      sysfs_write CPU_CLUST1_GOV_PATH (if b then "performance" else "interactive")
        (sysfs_write CPU_CLUST0_GOV_PATH (if b then "performance" else "interactive")
          (w.emit LogLevel.verbose "RK performance_boost Entered!")) := rfl

theorem interactive_eq (w : World) :
    interactive w =
      sysfs_write CPU_CLUST1_GOV_PATH "interactive"
        (sysfs_write CPU_CLUST0_GOV_PATH "interactive"
          (w.emit LogLevel.verbose "RK interactive Entered!")) := rfl

/-- The world `setMode` leaves: for a mode with a policy value, that value written to cluster 0
and then to cluster 1 behind two verbose lines; for every other mode, one verbose line. -/
theorem setMode_world (self : Power) (type : Int) (enabled : Bool) (w : World) :
    ∃ t : String, ∃ u : String, (self.setMode type enabled w).world =
      match policyValue type enabled with
      | some v => sysfs_write CPU_CLUST1_GOV_PATH v
          (sysfs_write CPU_CLUST0_GOV_PATH v ((w.emit LogLevel.verbose t).emit LogLevel.verbose u))
      | none => w.emit LogLevel.verbose t := by
  refine ⟨"Power setMode: " ++ toString type ++ " to: " ++ (if enabled then "1" else "0"), ?_⟩
  by_cases h1 : type = 1
  · subst h1
    exact ⟨"RK powersave Entered!", by cases enabled <;> simp [Power.setMode, policyValue, powersave_eq]⟩
  by_cases h8 : type = 8
  · subst h8
    exact ⟨"RK powersave Entered!", by cases enabled <;> simp [Power.setMode, policyValue, powersave_eq]⟩
  by_cases h3 : type = 3
  · subst h3
    exact ⟨"RK performance_boost Entered!",
      by cases enabled <;> simp [Power.setMode, policyValue, performance_boost_eq]⟩
  by_cases h5 : type = 5
  · subst h5
    exact ⟨"RK performance_boost Entered!",
      by cases enabled <;> simp [Power.setMode, policyValue, performance_boost_eq]⟩
  by_cases h7 : type = 7
  · subst h7
    exact ⟨"RK interactive Entered!",
      by cases enabled <;> simp [Power.setMode, policyValue, interactive_eq]⟩
  · exact ⟨"", by simp [Power.setMode, policyValue, h1, h3, h5, h7, h8]⟩


/-- What a mode outside the enumeration, or any mode without a rule, sends: nothing. -/
theorem policyValue_undefined (type : Int) (enabled : Bool) (h : type < 0 ∨ 14 < type) :
    policyValue type enabled = none := by
  have h1 : ¬ type = 1 := by omega
  have h3 : ¬ type = 3 := by omega
  have h5 : ¬ type = 5 := by omega
  have h7 : ¬ type = 7 := by omega
  have h8 : ¬ type = 8 := by omega
  simp [policyValue, h1, h3, h5, h7, h8]

/-- The reachability of every path is left as it was by `setMode`. -/
theorem setMode_access (self : Power) (type : Int) (enabled : Bool) (w : World) (q : String) :
    ((self.setMode type enabled w).world.channel q).access = (w.channel q).access := by
  obtain ⟨t, u, h⟩ := setMode_world self type enabled w
  rw [h]
  cases policyValue type enabled <;> simp

/-- The value each path holds after `setMode`. -/
theorem setMode_value (self : Power) (type : Int) (enabled : Bool) (w : World) (q : String) :
    ((self.setMode type enabled w).world.channel q).value =
      match policyValue type enabled with
      | some v =>
        if (q = CPU_CLUST0_GOV_PATH ∨ q = CPU_CLUST1_GOV_PATH) ∧
            (w.channel q).access = Access.writable then v
        else (w.channel q).value
      | none => (w.channel q).value := by
  obtain ⟨t, u, h⟩ := setMode_world self type enabled w
  rw [h]
  cases policyValue type enabled with
  | none => simp
  | some v =>
    simp only [sysfs_write_value, sysfs_write_access, emit_channel]
    by_cases h1 : q = CPU_CLUST1_GOV_PATH
    · subst h1
      have := clust_paths_ne.symm
      by_cases hw : (w.channel CPU_CLUST1_GOV_PATH).access = Access.writable <;> simp [hw, this]
    · by_cases h0 : q = CPU_CLUST0_GOV_PATH
      · subst h0
        by_cases hw : (w.channel CPU_CLUST0_GOV_PATH).access = Access.writable <;> simp [hw, h1]
      · simp [h0, h1]

/-- `setMode` never reads the property. -/
theorem setMode_propertyReads (self : Power) (type : Int) (enabled : Bool) (w : World) :
    (self.setMode type enabled w).world.propertyReads = w.propertyReads := by
  obtain ⟨t, u, h⟩ := setMode_world self type enabled w
  rw [h]
  cases policyValue type enabled <;> simp

/-- Detection reads the property once when the mode mask is negative, and not at all
otherwise. -/
theorem getSupportedPlatform_propertyReads (self : Power) (w : World) :
    (self.getSupportedPlatform w).2.propertyReads =
      w.propertyReads + (if self._mode_support_int < 0 then 1 else 0) := by
  unfold Power.getSupportedPlatform
  by_cases h : self._mode_support_int < 0
  · rw [if_pos h, if_pos h]
    simp only []
    split <;> rfl
  · rw [if_neg h, if_neg h]
    rfl

/-- The reads counted after a mode query. -/
theorem isModeSupported_propertyReads (self : Power) (type : Mode) (w : World) :
    (self.isModeSupported type w).world.propertyReads =
      w.propertyReads + (if self._mode_support_int < 0 then 1 else 0) := by
  unfold Power.isModeSupported
  simp only [getSupportedPlatform_propertyReads, emit_propertyReads]

/-- The reads counted after a boost query. -/
theorem isBoostSupported_propertyReads (self : Power) (type : Boost) (w : World) :
    (self.isBoostSupported type w).world.propertyReads =
      w.propertyReads + (if self._mode_support_int < 0 then 1 else 0) := by
  unfold Power.isBoostSupported
  simp only [getSupportedPlatform_propertyReads, emit_propertyReads]

/-- With a resolved mode mask, one call keeps the object, reads nothing, and its reply does not
depend on the world. -/
theorem serve_resolved (self : Power) (h : 0 ≤ self._mode_support_int) (c : Call)
    (w w' : World) :
    (self.serve c w).1 = (self.serve c w').1 ∧ (self.serve c w).2.1 = self ∧
    (self.serve c w).2.2.propertyReads = w.propertyReads := by
  have hn : ¬ self._mode_support_int < 0 := by omega
  cases c with
  | setMode type enabled =>
    exact ⟨rfl, rfl, setMode_propertyReads self type enabled w⟩
  | isModeSupported type =>
    refine ⟨?_, ?_, ?_⟩
    · simp only [Power.serve, Power.isModeSupported, getSupportedPlatform_resolved self _ h]
    · show (self.isModeSupported type w).self = self
      rw [isModeSupported_self, getSupportedPlatform_resolved self w h]
    · show (self.isModeSupported type w).world.propertyReads = w.propertyReads
      rw [isModeSupported_propertyReads, if_neg hn, Nat.add_zero]
  | setBoost type durationMs => exact ⟨rfl, rfl, rfl⟩
  | isBoostSupported type =>
    refine ⟨?_, ?_, ?_⟩
    · simp only [Power.serve, Power.isBoostSupported, getSupportedPlatform_resolved self _ h]
    · show (self.isBoostSupported type w).self = self
      rw [isBoostSupported_self, getSupportedPlatform_resolved self w h]
    · show (self.isBoostSupported type w).world.propertyReads = w.propertyReads
      rw [isBoostSupported_propertyReads, if_neg hn, Nat.add_zero]

/-- With a resolved mode mask, a whole run keeps the object, reads nothing, and its replies
depend only on the calls, not on the worlds or on the identifier values paired with them. -/
theorem run_resolved (self : Power) (h : 0 ≤ self._mode_support_int) :
    ∀ (es es' : List (List Nat × Call)) (w w' : World),
      es.map Prod.snd = es'.map Prod.snd →
      (self.run w es).1 = (self.run w' es').1 ∧ (self.run w es).2.1 = self ∧
      (self.run w es).2.2.propertyReads = w.propertyReads := by
  intro es
  induction es with
  | nil =>
    intro es' w w' hc
    cases es' with
    | nil => exact ⟨rfl, rfl, rfl⟩
    | cons e es' => simp at hc
  | cons e es ih =>
    intro es' w w' hc
    cases es' with
    | nil => simp at hc
    | cons e' es' =>
      obtain ⟨hw, c⟩ := e
      obtain ⟨hw', c'⟩ := e'
      simp only [List.map_cons, List.cons.injEq] at hc
      obtain ⟨hcc, hrest⟩ := hc
      subst hcc
      obtain ⟨s1, s2, s3⟩ := serve_resolved self h c { w with hardware := hw }
        { w' with hardware := hw' }
      have t2 := (serve_resolved self h c { w' with hardware := hw' }
        { w with hardware := hw }).2.1
      simp only [Power.run]
      rw [s2, t2]
      obtain ⟨i1, i2, i3⟩ := ih es' (self.serve c { w with hardware := hw }).2.2
        (self.serve c { w' with hardware := hw' }).2.2 hrest
      refine ⟨?_, i2, ?_⟩
      · rw [s1, i1]
      · rw [i3, s3]

/-- Two channels with the same reachability and the same content are the same channel. -/
theorem channel_eq (a b : Channel) (ha : a.access = b.access) (hv : a.value = b.value) :
    a = b := by
  cases a
  cases b
  simp_all

/-- The masks detection leaves are not changed by detecting again under the same identifier. -/
theorem getSupportedPlatform_idem (self : Power) (w w2 : World)
    (h : w2.hardware = w.hardware) :
    ((self.getSupportedPlatform w).1.getSupportedPlatform w2).1 =
      (self.getSupportedPlatform w).1 := by
  by_cases hneg : self._mode_support_int < 0
  · by_cases hp : cstring w.hardware = cstr "rk3399"
    · rw [getSupportedPlatform_rk3399 self w hneg hp]
      show (Power.getSupportedPlatform
        { _mode_support_int := 0x3FFF, _boost_support_int := 0x003F } w2).1 = _
      rw [getSupportedPlatform_resolved _ w2 (show (0 : Int) ≤ 0x3FFF by decide)]
    · rw [getSupportedPlatform_unrecognized self w hneg hp]
      rw [getSupportedPlatform_unrecognized self w2 hneg (by rw [h]; exact hp)]
  · rw [getSupportedPlatform_resolved self w (by omega)]
    rw [getSupportedPlatform_resolved self w2 (by omega)]

/-- The answer of a mode query is a function of the masks detection leaves. -/
theorem isModeSupported_congr (self self' : Power) (w w' : World) (type : Mode)
    (h : (self.getSupportedPlatform w).1 = (self'.getSupportedPlatform w').1) :
    (self.isModeSupported type w)._aidl_return = (self'.isModeSupported type w')._aidl_return := by
  unfold Power.isModeSupported
  simp only [getSupportedPlatform_emit_fst, h]

/-- The answer of a boost query is a function of the masks detection leaves. -/
theorem isBoostSupported_congr (self self' : Power) (w w' : World) (type : Boost)
    (h : (self.getSupportedPlatform w).1 = (self'.getSupportedPlatform w').1) :
    (self.isBoostSupported type w)._aidl_return =
      (self'.isBoostSupported type w')._aidl_return := by
  unfold Power.isBoostSupported
  simp only [getSupportedPlatform_emit_fst, h]

/-- A sequence of `setMode` calls leaves the reachability of every path as it was. -/
theorem setModes_access (self : Power) (q : String) :
    ∀ (calls : List (Mode × Bool)) (w : World),
      ((self.setModes w calls).channel q).access = (w.channel q).access := by
  intro calls
  induction calls with
  | nil => intro w; rfl
  | cons c rest ih =>
    intro w
    obtain ⟨type, enabled⟩ := c
    show ((self.setModes (self.setMode type enabled w).world rest).channel q).access = _
    rw [ih, setMode_access]

/-- The last written value of a longer sequence, read from its first call onwards. -/
theorem lastWritten_cons_getD (c : Mode × Bool) (rest : List (Mode × Bool)) (d : String) :
    (lastWritten (c :: rest)).getD d =
      (lastWritten rest).getD ((policyValue c.1 c.2).getD d) := by
  unfold lastWritten
  rw [List.filterMap_cons]
  cases policyValue c.1 c.2 with
  | none => rfl
  | some v => simp [List.getLast?_cons]

/-- On a writable cluster channel, a sequence of `setMode` calls leaves the value of the last
call that has a writing rule, or the initial content when there is none. -/
theorem setModes_value (self : Power) (q : String)
    (hq : q = CPU_CLUST0_GOV_PATH ∨ q = CPU_CLUST1_GOV_PATH) :
    ∀ (calls : List (Mode × Bool)) (w : World), (w.channel q).access = Access.writable →
      ((self.setModes w calls).channel q).value =
        (lastWritten calls).getD (w.channel q).value := by
  intro calls
  induction calls with
  | nil => intro w _; rfl
  | cons c rest ih =>
    intro w hw
    obtain ⟨type, enabled⟩ := c
    show ((self.setModes (self.setMode type enabled w).world rest).channel q).value = _
    rw [ih _ (by rw [setMode_access]; exact hw), lastWritten_cons_getD, setMode_value]
    cases policyValue type enabled with
    | none => rfl
    | some v => simp [hq, hw]

/-- A NUL-free byte sequence is its own C string. -/
theorem cstring_of_no_nul (v : List Nat) (h : ∀ c ∈ v, c ≠ 0) : cstring v = v := by
  unfold cstring
  induction v with
  | nil => rfl
  | cons a rest ih =>
    have ha : a ≠ 0 := h a (by simp)
    rw [List.takeWhile_cons]
    simp only [ha, ne_eq, not_false_eq_true, decide_True, if_true]
    rw [ih (fun c hc => h c (by simp [hc]))]

/-- Detection leaves the masks as they were or stores the pair of `rk3399`. -/
theorem getSupportedPlatform_fst_cases (self : Power) (w : World) :
    (self.getSupportedPlatform w).1 = self ∨
      (self.getSupportedPlatform w).1 =
        { _mode_support_int := 0x3FFF, _boost_support_int := 0x003F } := by
  by_cases hneg : self._mode_support_int < 0
  · by_cases hp : cstring w.hardware = cstr "rk3399"
    · right; rw [getSupportedPlatform_rk3399 self w hneg hp]
    · left; rw [getSupportedPlatform_unrecognized self w hneg hp]
  · left; rw [getSupportedPlatform_resolved self w (by omega)]

/-- Detection touches no channel and no trace of the control surface. -/
theorem getSupportedPlatform_sameSurface (self : Power) (w : World) :
    (self.getSupportedPlatform w).2.sameSurface w := by
  by_cases hneg : self._mode_support_int < 0
  · by_cases hp : cstring w.hardware = cstr "rk3399"
    · rw [getSupportedPlatform_rk3399 self w hneg hp]; exact ⟨rfl, rfl, rfl, rfl⟩
    · rw [getSupportedPlatform_unrecognized self w hneg hp]; exact ⟨rfl, rfl, rfl, rfl⟩
  · rw [getSupportedPlatform_resolved self w (by omega)]; exact ⟨rfl, rfl, rfl, rfl⟩

/-- One call leaves the masks as they were or stores the pair of `rk3399`. -/
theorem serve_fst_cases (self : Power) (c : Call) (w : World) :
    (self.serve c w).2.1 = self ∨
      (self.serve c w).2.1 = { _mode_support_int := 0x3FFF, _boost_support_int := 0x003F } := by
  cases c with
  | setMode type enabled => left; rfl
  | isModeSupported type =>
    show (self.isModeSupported type w).self = self ∨ (self.isModeSupported type w).self = _
    rw [isModeSupported_self]
    exact getSupportedPlatform_fst_cases self w
  | setBoost type durationMs => left; rfl
  | isBoostSupported type =>
    show (self.isBoostSupported type w).self = self ∨ (self.isBoostSupported type w).self = _
    rw [isBoostSupported_self]
    exact getSupportedPlatform_fst_cases self w

/-- A run is served call after call. -/
theorem run_append (self : Power) (es2 : List (List Nat × Call)) :
    ∀ (es : List (List Nat × Call)) (w : World),
      (self.run w (es ++ es2)).2.1 = ((self.run w es).2.1.run (self.run w es).2.2 es2).2.1 := by
  intro es
  induction es generalizing self with
  | nil => intro w; rfl
  | cons e es ih =>
    intro w
    obtain ⟨hw, c⟩ := e
    simp only [List.cons_append, Power.run]
    exact ih _ _

/-- From the pair `s0` or the pair of `rk3399`, a run ends in one of these two pairs. -/
theorem run_fst_cases (s0 : Power) :
    ∀ (es : List (List Nat × Call)) (self : Power) (w : World),
      (self = s0 ∨ self = { _mode_support_int := 0x3FFF, _boost_support_int := 0x003F }) →
      ((self.run w es).2.1 = s0 ∨
        (self.run w es).2.1 = { _mode_support_int := 0x3FFF, _boost_support_int := 0x003F }) := by
  intro es
  induction es with
  | nil => intro self w h; exact h
  | cons e es ih =>
    intro self w h
    obtain ⟨hw, c⟩ := e
    simp only [Power.run]
    apply ih
    rcases serve_fst_cases self c { w with hardware := hw } with h1 | h1
    · rw [h1]; exact h
    · right; exact h1

/-- Every value in the policy table is one of the three governor names. -/
theorem policyValue_mem (type : Int) (enabled : Bool) (v : String)
    (h : policyValue type enabled = some v) :
    v = "performance" ∨ v = "powersave" ∨ v = "interactive" := by
  unfold policyValue at h
  split_ifs at h <;> cases enabled <;> simp at h <;> simp [← h]

/-- `sysfs_write` acts on the control surface alone: on worlds that agree there, it leaves
worlds that agree there. -/
theorem sysfs_write_sameSurface (path s : String) (w w' : World) (h : w.sameSurface w') :
    (sysfs_write path s w).sameSurface (sysfs_write path s w') := by
  obtain ⟨hc, hr, ho, hw⟩ := h
  unfold World.sameSurface sysfs_write
  simp only [hc, hr, ho, hw]
  cases (w'.channel path).access <;> simp [World.emit, World.store, hc, hr, ho, hw]

/-- A log line does not belong to the control surface. -/
theorem emit_sameSurface (w : World) (l : LogLevel) (t : String) :
    (w.emit l t).sameSurface w := ⟨rfl, rfl, rfl, rfl⟩

theorem sameSurface_symm (w w' : World) (h : w.sameSurface w') : w'.sameSurface w :=
  ⟨h.1.symm, h.2.1.symm, h.2.2.1.symm, h.2.2.2.symm⟩

theorem sameSurface_trans (a b c : World) (h : a.sameSurface b) (h' : b.sameSurface c) :
    a.sameSurface c :=
  ⟨h.1.trans h'.1, h.2.1.trans h'.2.1, h.2.2.1.trans h'.2.2.1, h.2.2.2.trans h'.2.2.2⟩

/-- `setMode` acts on the control surface alone, whatever the masks, the property, the read
count and the log. -/
theorem setMode_sameSurface (self self' : Power) (type : Int) (enabled : Bool) (w w' : World)
    (h : w.sameSurface w') :
    (self.setMode type enabled w).world.sameSurface (self'.setMode type enabled w').world := by
  obtain ⟨t, u, h1⟩ := setMode_world self type enabled w
  obtain ⟨t', u', h2⟩ := setMode_world self' type enabled w'
  rw [h1, h2]
  have he : ∀ a b c d, ((w.emit LogLevel.verbose a).emit LogLevel.verbose b).sameSurface
      ((w'.emit LogLevel.verbose c).emit LogLevel.verbose d) := by
    intro a b c d
    exact h
  cases policyValue type enabled with
  | none => exact h
  | some v =>
    exact sysfs_write_sameSurface _ _ _ _ (sysfs_write_sameSurface _ _ _ _ (he t u t' u'))

/-! ## Capability queries -/

/-- C1 (counterexample). With both masks at the negative sentinel `-1` and the empty platform
identifier, which is not a recognized platform, `isModeSupported(LOW_POWER)` and
`isBoostSupported(INTERACTION)` both return true, not false. -/
theorem C1_counterexample_sentinel_minus_one :
    Power.unresolved._mode_support_int < 0 ∧ Power.unresolved._boost_support_int < 0 ∧
    cstring (bootWorld []).hardware ≠ cstr "rk3399" ∧
    (Power.unresolved.isModeSupported Mode.LOW_POWER (bootWorld []))._aidl_return = true ∧
    (Power.unresolved.isBoostSupported Boost.INTERACTION (bootWorld []))._aidl_return = true := by
  have hneg : Power.unresolved._mode_support_int < 0 := by decide
  have hp : cstring (bootWorld []).hardware ≠ cstr "rk3399" := by decide
  refine ⟨hneg, by decide, hp, ?_, ?_⟩
  · have h := isModeSupported_defined Power.unresolved (bootWorld []) 1 (by decide)
    rw [getSupportedPlatform_unrecognized _ _ hneg hp] at h
    exact h.trans (by decide)
  · have h := isBoostSupported_defined Power.unresolved (bootWorld []) 0 (by decide)
    rw [getSupportedPlatform_unrecognized _ _ hneg hp] at h
    exact h.trans (by decide)

/-- C1 (amended). On a platform identifier other than `rk3399` (the empty one included),
starting from a negative mode mask, a query leaves both masks as they are and answers with the
two's complement bit of the sentinel itself: bit `14 - i` of the mode sentinel for the defined
mode of ordinal `i`, bit `5 - i` of the boost sentinel for the real boost of ordinal `i`, and
false for every value outside the enumerations. -/
theorem C1_unrecognized_query_answers_sentinel_bit (self : Power) (w : World)
    (hneg : self._mode_support_int < 0) (hp : cstring w.hardware ≠ cstr "rk3399") :
    (∀ i : Nat, i ≤ 14 →
      (self.isModeSupported (i : Int) w)._aidl_return = self._mode_support_int.testBit (14 - i)) ∧
    (∀ type : Mode, type < 0 ∨ 14 < type → (self.isModeSupported type w)._aidl_return = false) ∧
    (∀ i : Nat, i ≤ 5 →
      (self.isBoostSupported (i : Int) w)._aidl_return =
        self._boost_support_int.testBit (5 - i)) ∧
    (∀ type : Boost, type < 0 ∨ 5 < type → (self.isBoostSupported type w)._aidl_return = false) ∧
    (∀ type : Mode, (self.isModeSupported type w).self = self) ∧
    (∀ type : Boost, (self.isBoostSupported type w).self = self) := by
  have hg := getSupportedPlatform_unrecognized self w hneg hp
  refine ⟨?_, ?_, ?_, ?_, ?_, ?_⟩
  · intro i hi
    rw [isModeSupported_defined self w i hi, hg]
  · intro type h
    exact isModeSupported_undefined self w type h
  · intro i hi
    rw [isBoostSupported_defined self w i hi, hg]
  · intro type h
    exact isBoostSupported_undefined self w type h
  · intro type
    rw [isModeSupported_self, hg]
  · intro type
    rw [isBoostSupported_self, hg]

/-- C1 (witness). The amended statement at the sentinel `-1` and the empty identifier:
`isModeSupported(FIXED_PERFORMANCE)` answers bit 11 of `-1`. -/
theorem C1_witness :
    (Power.unresolved._mode_support_int < 0 ∧ cstring (bootWorld []).hardware ≠ cstr "rk3399") ∧
    (Power.unresolved.isModeSupported ((3 : Nat) : Int) (bootWorld []))._aidl_return =
      Power.unresolved._mode_support_int.testBit (14 - 3) :=
  ⟨⟨by decide, by decide⟩,
    (C1_unrecognized_query_answers_sentinel_bit Power.unresolved (bootWorld [])
      (by decide) (by decide)).1 3 (by decide)⟩

/-- The mode mask detection leaves on the reference platform. -/
theorem getSupportedPlatform_reference (self : Power) (w : World)
    (h : (self._mode_support_int < 0 ∧ cstring w.hardware = cstr "rk3399") ∨
      self = { _mode_support_int := 0x3FFF, _boost_support_int := 0x003F }) :
    (self.getSupportedPlatform w).1 =
      { _mode_support_int := 0x3FFF, _boost_support_int := 0x003F } := by
  rcases h with ⟨hneg, hp⟩ | h
  · rw [getSupportedPlatform_rk3399 self w hneg hp]
  · rw [getSupportedPlatform_resolved self w (by rw [h]; decide), h]

/-- C2 (counterexample). On `rk3399`, starting unresolved, `isModeSupported(DOUBLE_TAP_TO_WAKE)`
returns false although DOUBLE_TAP_TO_WAKE is a real mode: it tests bit 14, which `0x3FFF`
leaves clear. -/
theorem C2_counterexample_double_tap_to_wake :
    (Power.unresolved.isModeSupported Mode.DOUBLE_TAP_TO_WAKE
      (bootWorld (cstr "rk3399")))._aidl_return = false ∧
    (Power.unresolved.isModeSupported Mode.DOUBLE_TAP_TO_WAKE (bootWorld (cstr "rk3399"))).self =
      { _mode_support_int := 0x3FFF, _boost_support_int := 0x003F } := by
  decide

/-- C2 (amended). On the reference platform (identifier `rk3399` read from the unresolved
state, or the masks `0x3FFF`, `0x003F` already cached), `isModeSupported` returns true for the
fourteen modes LOW_POWER up to CAMERA_STREAMING_HIGH (ordinals 1 to 14), false for
DOUBLE_TAP_TO_WAKE (ordinal 0, bit 14), and false for every value outside the enumeration;
the cached masks afterwards are `0x3FFF` and `0x003F`. -/
theorem C2_reference_platform_modes (self : Power) (w : World)
    (h : (self._mode_support_int < 0 ∧ cstring w.hardware = cstr "rk3399") ∨
      self = { _mode_support_int := 0x3FFF, _boost_support_int := 0x003F }) :
    (∀ i : Nat, 1 ≤ i → i ≤ 14 → (self.isModeSupported (i : Int) w)._aidl_return = true) ∧
    (self.isModeSupported Mode.DOUBLE_TAP_TO_WAKE w)._aidl_return = false ∧
    (∀ type : Mode, type < 0 ∨ 14 < type → (self.isModeSupported type w)._aidl_return = false) ∧
    (∀ type : Mode, (self.isModeSupported type w).self =
      { _mode_support_int := 0x3FFF, _boost_support_int := 0x003F }) := by
  have hg := getSupportedPlatform_reference self w h
  refine ⟨?_, ?_, ?_, ?_⟩
  · intro i h1 hi
    rw [isModeSupported_defined self w i hi, hg]
    interval_cases i <;> decide
  · have h0 := isModeSupported_defined self w 0 (by decide)
    rw [hg] at h0
    exact h0.trans (by decide)
  · intro type ht
    exact isModeSupported_undefined self w type ht
  · intro type
    rw [isModeSupported_self, hg]

/-- C2 (witness). The amended statement on `rk3399` from the unresolved state: LOW_POWER is
reported supported. -/
theorem C2_witness :
    (Power.unresolved._mode_support_int < 0 ∧
      cstring (bootWorld (cstr "rk3399")).hardware = cstr "rk3399") ∧
    (Power.unresolved.isModeSupported ((1 : Nat) : Int)
      (bootWorld (cstr "rk3399")))._aidl_return = true :=
  ⟨⟨by decide, by decide⟩,
    (C2_reference_platform_modes Power.unresolved (bootWorld (cstr "rk3399"))
      (Or.inl ⟨by decide, by decide⟩)).1 1 (by decide) (by decide)⟩

/-- C3. With a resolved (non-negative) cached mode mask `k`, the defined mode of ordinal `i`
(0 for DOUBLE_TAP_TO_WAKE up to 14 for CAMERA_STREAMING_HIGH) is reported supported exactly
when bit `14 - i` of `k` is set, the mask stays cached, and distinct modes test distinct
bits. -/
theorem C3_mode_bit_assignment (self : Power) (w : World) (hk : 0 ≤ self._mode_support_int)
    (i : Nat) (hi : i ≤ 14) :
    ((self.isModeSupported (i : Int) w)._aidl_return = true ↔
      self._mode_support_int.testBit (14 - i) = true) ∧
    (self.isModeSupported (i : Int) w).self = self ∧
    (∀ j : Nat, j ≤ 14 → 14 - i = 14 - j → i = j) := by
  have hg := getSupportedPlatform_resolved self w hk
  refine ⟨?_, ?_, ?_⟩
  · rw [isModeSupported_defined self w i hi, hg]
  · rw [isModeSupported_self, hg]
  · intro j hj h
    omega

/-- C3 (witness). With the mask `0x3FFF` cached, LAUNCH (ordinal 5) tests bit 9. -/
theorem C3_witness :
    (0 : Int) ≤ 0x3FFF ∧
    ((Power.isModeSupported { _mode_support_int := 0x3FFF, _boost_support_int := 0x003F }
        ((5 : Nat) : Int) (bootWorld []))._aidl_return = true ↔
      Int.testBit 0x3FFF (14 - 5) = true) :=
  ⟨by decide,
    (C3_mode_bit_assignment { _mode_support_int := 0x3FFF, _boost_support_int := 0x003F }
      (bootWorld []) (by decide) 5 (by decide)).1⟩

/-- C4. With a resolved cache (the mode mask, which is the guard tested by detection, is
non-negative) holding the non-negative boost mask `k`, the real boost of ordinal `i`
(0 for INTERACTION up to 5 for CAMERA_SHOT) is reported supported exactly when bit `5 - i` of
`k` is set; and on the reference platform `rk3399`, read from the unresolved state, all six
real boosts are reported supported. -/
theorem C4_boost_bit_assignment (self : Power) (w : World) (i : Nat) (hi : i ≤ 5) :
    (0 ≤ self._mode_support_int → 0 ≤ self._boost_support_int →
      ((self.isBoostSupported (i : Int) w)._aidl_return = true ↔
        self._boost_support_int.testBit (5 - i) = true)) ∧
    (self._mode_support_int < 0 → cstring w.hardware = cstr "rk3399" →
      (self.isBoostSupported (i : Int) w)._aidl_return = true ∧
      (self.isBoostSupported (i : Int) w).self._boost_support_int = 0x003F) := by
  refine ⟨?_, ?_⟩
  · intro hm _
    rw [isBoostSupported_defined self w i hi, getSupportedPlatform_resolved self w hm]
  · intro hneg hp
    rw [isBoostSupported_defined self w i hi, isBoostSupported_self,
      getSupportedPlatform_reference self w (Or.inl ⟨hneg, hp⟩)]
    refine ⟨?_, rfl⟩
    interval_cases i <;> decide

/-- C4 (witness). Both parts at concrete inputs: the cached mask `0x003F` and CAMERA_LAUNCH
(ordinal 4), and `rk3399` read from the unresolved state. -/
theorem C4_witness :
    ((0 : Int) ≤ 0x3FFF ∧ (0 : Int) ≤ 0x003F ∧
      ((Power.isBoostSupported { _mode_support_int := 0x3FFF, _boost_support_int := 0x003F }
          ((4 : Nat) : Int) (bootWorld []))._aidl_return = true ↔
        Int.testBit 0x003F (5 - 4) = true)) ∧
    (Power.unresolved._mode_support_int < 0 ∧
      cstring (bootWorld (cstr "rk3399")).hardware = cstr "rk3399" ∧
      (Power.unresolved.isBoostSupported ((4 : Nat) : Int)
        (bootWorld (cstr "rk3399")))._aidl_return = true) :=
  ⟨⟨by decide, by decide,
      (C4_boost_bit_assignment { _mode_support_int := 0x3FFF, _boost_support_int := 0x003F }
        (bootWorld []) 4 (by decide)).1 (by decide) (by decide)⟩,
    ⟨by decide, by decide,
      ((C4_boost_bit_assignment Power.unresolved (bootWorld (cstr "rk3399")) 4 (by decide)).2
        (by decide) (by decide)).1⟩⟩

/-! ## Governor commands -/

/-- C5. For every mode value and flag, `setMode` invokes `sysfs_write` exactly as the policy
table says (`policyWrites`: LOW_POWER and DEVICE_IDLE send powersave or interactive,
FIXED_PERFORMANCE and LAUNCH send performance or interactive, INTERACTIVE sends interactive
when enabled, everything else sends nothing; cluster 0 first, then cluster 1), and the
`write` calls performed are those of the table whose channel exists and opens. -/
theorem C5_setMode_follows_policy_table (self : Power) (type : Mode) (enabled : Bool)
    (w : World) :
    (self.setMode type enabled w).world.requests = w.requests ++ policyWrites type enabled ∧
    (self.setMode type enabled w).world.writes =
      w.writes ++ (policyWrites type enabled).filter (fun r => (w.channel r.1).access.opens) := by
  obtain ⟨t, u, h⟩ := setMode_world self type enabled w
  rw [h]
  unfold policyWrites
  cases policyValue type enabled with
  | none => simp
  | some v =>
    refine ⟨by simp, ?_⟩
    simp only [sysfs_write_writes, sysfs_write_access, emit_channel, emit_writes]
    by_cases h0 : (w.channel CPU_CLUST0_GOV_PATH).access.opens = true <;>
      by_cases h1 : (w.channel CPU_CLUST1_GOV_PATH).access.opens = true <;>
      simp [List.filter, h0, h1]

/-- C6. With both cluster channels existing and writable, whatever they hold, after
`setMode(LOW_POWER, true)` both hold powersave, after a following `setMode(LOW_POWER, false)`
both hold interactive, and both calls return success. -/
theorem C6_low_power_on_then_off (self : Power) (w : World)
    (h0 : (w.channel CPU_CLUST0_GOV_PATH).access = Access.writable)
    (h1 : (w.channel CPU_CLUST1_GOV_PATH).access = Access.writable) :
    (self.setMode Mode.LOW_POWER true w).status = ScopedAStatus.ok ∧
    ((self.setMode Mode.LOW_POWER true w).world.channel CPU_CLUST0_GOV_PATH).value
      = "powersave" ∧
    ((self.setMode Mode.LOW_POWER true w).world.channel CPU_CLUST1_GOV_PATH).value
      = "powersave" ∧
    ((self.setMode Mode.LOW_POWER true w).self.setMode Mode.LOW_POWER false
      (self.setMode Mode.LOW_POWER true w).world).status = ScopedAStatus.ok ∧
    (((self.setMode Mode.LOW_POWER true w).self.setMode Mode.LOW_POWER false
      (self.setMode Mode.LOW_POWER true w).world).world.channel CPU_CLUST0_GOV_PATH).value
      = "interactive" ∧
    (((self.setMode Mode.LOW_POWER true w).self.setMode Mode.LOW_POWER false
      (self.setMode Mode.LOW_POWER true w).world).world.channel CPU_CLUST1_GOV_PATH).value
      = "interactive" := by
  have hon : policyValue Mode.LOW_POWER true = some "powersave" := by decide
  have hoff : policyValue Mode.LOW_POWER false = some "interactive" := by decide
  refine ⟨rfl, ?_, ?_, rfl, ?_, ?_⟩
  · rw [setMode_value, hon]; simp [h0]
  · rw [setMode_value, hon]; simp [h1]
  · rw [setMode_value, hoff]; simp [setMode_access, h0]
  · rw [setMode_value, hoff]; simp [setMode_access, h1]

/-- C6 (witness). The boot world has both cluster channels writable, holding schedutil. -/
theorem C6_witness :
    ((bootWorld []).channel CPU_CLUST0_GOV_PATH).access = Access.writable ∧
    ((bootWorld []).channel CPU_CLUST1_GOV_PATH).access = Access.writable ∧
    ((Power.unresolved.setMode Mode.LOW_POWER true (bootWorld [])).world.channel
      CPU_CLUST1_GOV_PATH).value = "powersave" :=
  ⟨by decide, by decide,
    (C6_low_power_on_then_off Power.unresolved (bootWorld []) (by decide) (by decide)).2.2.1⟩

/-- C7. Each of the four operations returns the success status, for every argument, every
cached mask pair and every world (identifier, channel reachability and contents). -/
theorem C7_status_always_ok (self : Power) (w : World) (mode : Mode) (enabled : Bool)
    (boost : Boost) (durationMs : Int) :
    (self.isModeSupported mode w).status = ScopedAStatus.ok ∧
    (self.isBoostSupported boost w).status = ScopedAStatus.ok ∧
    (self.setMode mode enabled w).status = ScopedAStatus.ok ∧
    (self.setBoost boost durationMs w).status = ScopedAStatus.ok ∧
    (∀ c : Call, (self.serve c w).1.status = ScopedAStatus.ok) := by
  refine ⟨rfl, rfl, rfl, rfl, ?_⟩
  intro c
  cases c <;> rfl

/-- C8. For a Mode value outside 0..14 and a Boost value outside 0..5, whatever the cached
masks, both queries return false and both commands invoke no `sysfs_write`, perform no `write`
and leave every channel as it was. -/
theorem C8_undefined_values_take_default (self : Power) (w : World) (mode : Mode)
    (boost : Boost) (enabled : Bool) (durationMs : Int)
    (hm : mode < 0 ∨ 14 < mode) (hb : boost < 0 ∨ 5 < boost) :
    (self.isModeSupported mode w)._aidl_return = false ∧
    (self.isBoostSupported boost w)._aidl_return = false ∧
    (self.setMode mode enabled w).world.requests = w.requests ∧
    (self.setMode mode enabled w).world.writes = w.writes ∧
    (self.setMode mode enabled w).world.channel = w.channel ∧
    (self.setBoost boost durationMs w).world.requests = w.requests ∧
    (self.setBoost boost durationMs w).world.writes = w.writes ∧
    (self.setBoost boost durationMs w).world.channel = w.channel := by
  obtain ⟨t, u, h⟩ := setMode_world self mode enabled w
  rw [policyValue_undefined mode enabled hm] at h
  refine ⟨isModeSupported_undefined self w mode hm, isBoostSupported_undefined self w boost hb,
    ?_, ?_, ?_, rfl, rfl, rfl⟩ <;> rw [h] <;> rfl

/-- C8 (witness). The values 15 and 6 are outside the enumerations. -/
theorem C8_witness :
    (((15 : Mode) < 0 ∨ (14 : Mode) < 15) ∧ ((6 : Boost) < 0 ∨ (5 : Boost) < 6)) ∧
    (Power.unresolved.isModeSupported 15 (bootWorld []))._aidl_return = false ∧
    (Power.unresolved.setMode 15 true (bootWorld [])).world.requests = (bootWorld []).requests :=
  ⟨⟨by decide, by decide⟩,
    (C8_undefined_values_take_default Power.unresolved (bootWorld []) 15 6 true 0
      (by decide) (by decide)).1,
    (C8_undefined_values_take_default Power.unresolved (bootWorld []) 15 6 true 0
      (by decide) (by decide)).2.2.1⟩

/-- C9. For every boost value, duration, cached mask pair and world, `setBoost` invokes no
`sysfs_write`, performs no `write`, leaves every channel and both masks as they were, reads no
property, and returns success. -/
theorem C9_setBoost_has_no_effect (self : Power) (w : World) (boost : Boost)
    (durationMs : Int) :
    (self.setBoost boost durationMs w).status = ScopedAStatus.ok ∧
    (self.setBoost boost durationMs w).self = self ∧
    (self.setBoost boost durationMs w).world.requests = w.requests ∧
    (self.setBoost boost durationMs w).world.writes = w.writes ∧
    (self.setBoost boost durationMs w).world.channel = w.channel ∧
    (self.setBoost boost durationMs w).world.propertyReads = w.propertyReads ∧
    (self.setBoost boost durationMs w).world.hardware = w.hardware :=
  ⟨rfl, rfl, rfl, rfl, rfl, rfl, rfl⟩

/-! ## Platform detection over time -/

/-- C10 (counterexample). The first query finds the empty identifier and leaves the masks at
the sentinel `-1`; a later query reads the property again (two reads in all, whether the
identifier has changed to `rk3399` or is still empty), and its masks and its answer differ
according to the identifier's value at that later call. -/
theorem C10_counterexample_unrecognized_is_read_again :
    (Power.unresolved.isModeSupported Mode.DOUBLE_TAP_TO_WAKE (bootWorld [])).self
      = Power.unresolved ∧
    (Power.unresolved.isModeSupported Mode.DOUBLE_TAP_TO_WAKE
      (bootWorld [])).world.propertyReads = 1 ∧
    (Power.unresolved.isModeSupported Mode.DOUBLE_TAP_TO_WAKE
      { (Power.unresolved.isModeSupported Mode.DOUBLE_TAP_TO_WAKE (bootWorld [])).world with
        hardware := cstr "rk3399" }).world.propertyReads = 2 ∧
    (Power.unresolved.isModeSupported Mode.DOUBLE_TAP_TO_WAKE
      { (Power.unresolved.isModeSupported Mode.DOUBLE_TAP_TO_WAKE (bootWorld [])).world with
        hardware := cstr "rk3399" }).self
      = { _mode_support_int := 0x3FFF, _boost_support_int := 0x003F } ∧
    (Power.unresolved.isModeSupported Mode.DOUBLE_TAP_TO_WAKE
      { (Power.unresolved.isModeSupported Mode.DOUBLE_TAP_TO_WAKE (bootWorld [])).world with
        hardware := cstr "rk3399" })._aidl_return = false ∧
    (Power.unresolved.isModeSupported Mode.DOUBLE_TAP_TO_WAKE
      { (Power.unresolved.isModeSupported Mode.DOUBLE_TAP_TO_WAKE (bootWorld [])).world with
        hardware := [] }).world.propertyReads = 2 ∧
    (Power.unresolved.isModeSupported Mode.DOUBLE_TAP_TO_WAKE
      { (Power.unresolved.isModeSupported Mode.DOUBLE_TAP_TO_WAKE (bootWorld [])).world with
        hardware := [] }).self = Power.unresolved ∧
    (Power.unresolved.isModeSupported Mode.DOUBLE_TAP_TO_WAKE
      { (Power.unresolved.isModeSupported Mode.DOUBLE_TAP_TO_WAKE (bootWorld [])).world with
        hardware := [] })._aidl_return = true := by
  refine ⟨by decide, by decide, by decide, by decide, by decide, by decide, by decide, ?_⟩
  have h := isModeSupported_defined Power.unresolved
    { (Power.unresolved.isModeSupported Mode.DOUBLE_TAP_TO_WAKE (bootWorld [])).world with
      hardware := [] } 0 (by decide)
  rw [getSupportedPlatform_unrecognized _ _ (by decide) (by decide)] at h
  exact h.trans (by decide)

/-- C10 (amended). The identifier is read by every query made while the mode mask is
unresolved, and by no call once it is resolved: from a resolved state a whole run of calls
keeps the masks, counts no read, and gives replies that depend on the calls only, not on the
identifier values present when they arrive; from an unresolved state each query counts one
more read, and the read that finds `rk3399` resolves the mode mask; a read that finds any
other identifier leaves both masks as they were, so that whatever query comes next, in
whatever world, counts one more read again. -/
theorem C10_identifier_read_until_recognized (self : Power) (w : World) :
    (0 ≤ self._mode_support_int →
      ∀ (es es' : List (List Nat × Call)) (w' : World), es.map Prod.snd = es'.map Prod.snd →
        (self.run w es).1 = (self.run w' es').1 ∧ (self.run w es).2.1 = self ∧
        (self.run w es).2.2.propertyReads = w.propertyReads) ∧
    (self._mode_support_int < 0 →
      ∀ (mode : Mode) (boost : Boost),
        (self.isModeSupported mode w).world.propertyReads = w.propertyReads + 1 ∧
        (self.isBoostSupported boost w).world.propertyReads = w.propertyReads + 1) ∧
    (self._mode_support_int < 0 → cstring w.hardware = cstr "rk3399" →
      ∀ (mode : Mode) (boost : Boost),
        0 ≤ (self.isModeSupported mode w).self._mode_support_int ∧
        0 ≤ (self.isBoostSupported boost w).self._mode_support_int) ∧
    (self._mode_support_int < 0 → cstring w.hardware ≠ cstr "rk3399" →
      ∀ (mode : Mode) (boost : Boost),
        (self.isModeSupported mode w).self = self ∧
        (self.isBoostSupported boost w).self = self ∧
        (∀ (w2 : World) (mode2 : Mode) (boost2 : Boost),
          ((self.isModeSupported mode w).self.isModeSupported mode2 w2).world.propertyReads =
            w2.propertyReads + 1 ∧
          ((self.isModeSupported mode w).self.isBoostSupported boost2 w2).world.propertyReads =
            w2.propertyReads + 1 ∧
          ((self.isBoostSupported boost w).self.isModeSupported mode2 w2).world.propertyReads =
            w2.propertyReads + 1 ∧
          ((self.isBoostSupported boost w).self.isBoostSupported boost2 w2).world.propertyReads =
            w2.propertyReads + 1)) := by
  refine ⟨?_, ?_, ?_, ?_⟩
  · intro h es es' w' hc
    exact run_resolved self h es es' w w' hc
  · intro h mode boost
    rw [isModeSupported_propertyReads, isBoostSupported_propertyReads, if_pos h]
    exact ⟨rfl, rfl⟩
  · intro h hp mode boost
    rw [isModeSupported_self, isBoostSupported_self,
      getSupportedPlatform_reference self w (Or.inl ⟨h, hp⟩)]
    exact ⟨by decide, by decide⟩
  · intro h hp mode boost
    have hm : (self.isModeSupported mode w).self = self := by
      rw [isModeSupported_self, getSupportedPlatform_unrecognized self w h hp]
    have hb : (self.isBoostSupported boost w).self = self := by
      rw [isBoostSupported_self, getSupportedPlatform_unrecognized self w h hp]
    refine ⟨hm, hb, ?_⟩
    intro w2 mode2 boost2
    rw [hm, hb, isModeSupported_propertyReads, isBoostSupported_propertyReads, if_pos h]
    exact ⟨rfl, rfl, rfl, rfl⟩

/-- C10 (witness). From the resolved masks of `rk3399`, the same two queries give the same
replies whether the identifier then reads empty or `rk3326`; from the unresolved state a query
on the empty identifier counts one read, leaves the masks at the sentinel, and the query after
it counts one more read. -/
theorem C10_witness :
    ((0 : Int) ≤ 0x3FFF ∧
      (Power.run { _mode_support_int := 0x3FFF, _boost_support_int := 0x003F } (bootWorld [])
          [([], Call.isModeSupported Mode.LAUNCH), ([], Call.isBoostSupported Boost.ML_ACC)]).1 =
        (Power.run { _mode_support_int := 0x3FFF, _boost_support_int := 0x003F } (bootWorld [])
          [(cstr "rk3326", Call.isModeSupported Mode.LAUNCH),
            (cstr "rk3326", Call.isBoostSupported Boost.ML_ACC)]).1) ∧
    (Power.unresolved._mode_support_int < 0 ∧
      (Power.unresolved.isModeSupported Mode.LAUNCH (bootWorld [])).world.propertyReads =
        (bootWorld []).propertyReads + 1) ∧
    (cstring (bootWorld []).hardware ≠ cstr "rk3399" ∧
      (Power.unresolved.isModeSupported Mode.LAUNCH (bootWorld [])).self = Power.unresolved ∧
      ((Power.unresolved.isModeSupported Mode.LAUNCH (bootWorld [])).self.isModeSupported
          Mode.LAUNCH
          (Power.unresolved.isModeSupported Mode.LAUNCH (bootWorld [])).world).world.propertyReads =
        (Power.unresolved.isModeSupported Mode.LAUNCH (bootWorld [])).world.propertyReads + 1) :=
  ⟨⟨by decide,
      ((C10_identifier_read_until_recognized
        { _mode_support_int := 0x3FFF, _boost_support_int := 0x003F } (bootWorld [])).1
        (by decide) _ _ (bootWorld []) rfl).1⟩,
    ⟨by decide,
      ((C10_identifier_read_until_recognized Power.unresolved (bootWorld [])).2.1
        (by decide) Mode.LAUNCH Boost.ML_ACC).1⟩,
    ⟨by decide,
      ((C10_identifier_read_until_recognized Power.unresolved (bootWorld [])).2.2.2
        (by decide) (by decide) Mode.LAUNCH Boost.ML_ACC).1,
      (((C10_identifier_read_until_recognized Power.unresolved (bootWorld [])).2.2.2
        (by decide) (by decide) Mode.LAUNCH Boost.ML_ACC).2.2
        (Power.unresolved.isModeSupported Mode.LAUNCH (bootWorld [])).world
        Mode.LAUNCH Boost.ML_ACC).1⟩⟩

/-! ## The control surface -/

/-- C11. `sysfs_write` on a path that does not exist performs no `open` and no `write`, emits
no log line and leaves every channel as it was; on a path that exists but cannot be opened it
emits exactly one error line, which names the path and the error text, performs no `write` and
leaves every channel as it was; the function has no result to carry an error, and the
enclosing `setMode` returns success on every world. -/
theorem C11_sysfs_write_missing_or_unopenable (path s : String) (w : World) :
    ((w.channel path).access = Access.missing →
      (sysfs_write path s w).opens = w.opens ∧
      (sysfs_write path s w).writes = w.writes ∧
      (sysfs_write path s w).log = w.log ∧
      (sysfs_write path s w).channel = w.channel) ∧
    (∀ err : String, (w.channel path).access = Access.openFails err →
      (sysfs_write path s w).log =
        w.log ++ [{ level := LogLevel.error
                    text := "Error opening " ++ path ++ ": " ++ err.take 79 ++ "\n" }] ∧
      (sysfs_write path s w).writes = w.writes ∧
      (sysfs_write path s w).channel = w.channel) ∧
    (∀ (self : Power) (type : Mode) (enabled : Bool),
      (self.setMode type enabled w).status = ScopedAStatus.ok) := by
  refine ⟨?_, ?_, ?_⟩
  · intro h
    simp [sysfs_write, h]
  · intro err h
    simp [sysfs_write, h, World.emit]
  · intro self type enabled
    rfl

/-- C11 (witness). In the boot world the path `/proc/none` does not exist; with cluster 0
present but refusing `open`, one error line naming it is logged. -/
theorem C11_witness :
    (((bootWorld []).channel "/proc/none").access = Access.missing ∧
      (sysfs_write "/proc/none" "performance" (bootWorld [])).log = (bootWorld []).log) ∧
    ((({ bootWorld [] with
          channel := fun _ => { access := Access.openFails "Permission denied"
                                value := "schedutil" } } : World).channel
        CPU_CLUST0_GOV_PATH).access = Access.openFails "Permission denied" ∧
      (sysfs_write CPU_CLUST0_GOV_PATH "performance"
          ({ bootWorld [] with
              channel := fun _ => { access := Access.openFails "Permission denied"
                                    value := "schedutil" } } : World)).writes = []) :=
  ⟨⟨by decide,
      ((C11_sysfs_write_missing_or_unopenable "/proc/none" "performance" (bootWorld [])).1
        (by decide)).2.2.1⟩,
    ⟨rfl,
      ((C11_sysfs_write_missing_or_unopenable CPU_CLUST0_GOV_PATH "performance"
        ({ bootWorld [] with
            channel := fun _ => { access := Access.openFails "Permission denied"
                                  value := "schedutil" } } : World)).2.1
        "Permission denied" rfl).2.1⟩⟩

/-- C12. For every query argument, every cached mask pair and every identifier, a second query
with the same argument, made while the identifier is the same, returns the same answer as the
first and leaves the cached masks as the first left them. -/
theorem C12_queries_idempotent (self : Power) (w w2 : World) (h : w2.hardware = w.hardware)
    (mode : Mode) (boost : Boost) :
    ((self.isModeSupported mode w).self.isModeSupported mode w2)._aidl_return =
      (self.isModeSupported mode w)._aidl_return ∧
    ((self.isModeSupported mode w).self.isModeSupported mode w2).self =
      (self.isModeSupported mode w).self ∧
    ((self.isBoostSupported boost w).self.isBoostSupported boost w2)._aidl_return =
      (self.isBoostSupported boost w)._aidl_return ∧
    ((self.isBoostSupported boost w).self.isBoostSupported boost w2).self =
      (self.isBoostSupported boost w).self := by
  have hi := getSupportedPlatform_idem self w w2 h
  have hi2 := getSupportedPlatform_idem (self.getSupportedPlatform w).1 w2 w2 rfl
  rw [hi] at hi2
  refine ⟨?_, ?_, ?_, ?_⟩
  · apply isModeSupported_congr
    rw [isModeSupported_self, hi]
  · rw [isModeSupported_self, isModeSupported_self, hi]
  · apply isBoostSupported_congr
    rw [isBoostSupported_self, hi]
  · rw [isBoostSupported_self, isBoostSupported_self, hi]

/-- C12 (witness). Two consecutive queries on `rk3399` from the unresolved state, the second
in the world the first one left. -/
theorem C12_witness :
    (Power.unresolved.isModeSupported Mode.VR (bootWorld (cstr "rk3399"))).world.hardware =
      (bootWorld (cstr "rk3399")).hardware ∧
    ((Power.unresolved.isModeSupported Mode.VR (bootWorld (cstr "rk3399"))).self.isModeSupported
        Mode.VR
        (Power.unresolved.isModeSupported Mode.VR (bootWorld (cstr "rk3399"))).world)._aidl_return =
      (Power.unresolved.isModeSupported Mode.VR (bootWorld (cstr "rk3399")))._aidl_return :=
  ⟨by decide,
    (C12_queries_idempotent Power.unresolved (bootWorld (cstr "rk3399"))
      (Power.unresolved.isModeSupported Mode.VR (bootWorld (cstr "rk3399"))).world
      (by decide) Mode.VR Boost.ML_ACC).1⟩

/-- C13. Last write wins. With both cluster channels existing and writable, after any finite
sequence of `setMode` calls each cluster channel holds the value sent by the last call of the
sequence that has a writing rule (`lastWritten`), and its initial content when no call has
one; the content after a call does not depend on the calls before it: one more call with a
writing rule leaves exactly that rule's value, whatever was enabled earlier. -/
theorem C13_last_write_wins (self : Power) (w : World)
    (h0 : (w.channel CPU_CLUST0_GOV_PATH).access = Access.writable)
    (h1 : (w.channel CPU_CLUST1_GOV_PATH).access = Access.writable)
    (calls : List (Mode × Bool)) :
    ((self.setModes w calls).channel CPU_CLUST0_GOV_PATH).value =
      (lastWritten calls).getD (w.channel CPU_CLUST0_GOV_PATH).value ∧
    ((self.setModes w calls).channel CPU_CLUST1_GOV_PATH).value =
      (lastWritten calls).getD (w.channel CPU_CLUST1_GOV_PATH).value ∧
    (∀ (type : Mode) (enabled : Bool) (v : String), policyValue type enabled = some v →
      ((self.setModes w (calls ++ [(type, enabled)])).channel CPU_CLUST0_GOV_PATH).value = v ∧
      ((self.setModes w (calls ++ [(type, enabled)])).channel CPU_CLUST1_GOV_PATH).value = v) := by
  refine ⟨setModes_value self _ (Or.inl rfl) calls w h0,
    setModes_value self _ (Or.inr rfl) calls w h1, ?_⟩
  intro type enabled v hv
  have hl : lastWritten (calls ++ [(type, enabled)]) = some v := by
    unfold lastWritten
    rw [List.filterMap_append]
    simp [List.filterMap_cons, hv, List.getLast?_concat]
  rw [setModes_value self _ (Or.inl rfl) _ w h0, setModes_value self _ (Or.inr rfl) _ w h1, hl]
  exact ⟨rfl, rfl⟩

/-- C13 (witness). FIXED_PERFORMANCE is enabled and never disabled; disabling LOW_POWER
afterwards leaves interactive in cluster 0. -/
theorem C13_witness :
    (((bootWorld []).channel CPU_CLUST0_GOV_PATH).access = Access.writable ∧
      ((bootWorld []).channel CPU_CLUST1_GOV_PATH).access = Access.writable) ∧
    ((Power.unresolved.setModes (bootWorld [])
        ([(Mode.FIXED_PERFORMANCE, true)] ++ [(Mode.LOW_POWER, false)])).channel
      CPU_CLUST0_GOV_PATH).value = "interactive" :=
  ⟨⟨by decide, by decide⟩,
    ((C13_last_write_wins Power.unresolved (bootWorld []) (by decide) (by decide)
      [(Mode.FIXED_PERFORMANCE, true)]).2.2 Mode.LOW_POWER false "interactive" (by decide)).1⟩

/-- C14. For every mode value, flag and world, `setMode` performed a second time right after
the first leaves every channel, in reachability and in content, as the first call left it. -/
theorem C14_setMode_idempotent_on_channels (self : Power) (type : Mode) (enabled : Bool)
    (w : World) :
    ((self.setMode type enabled w).self.setMode type enabled
        (self.setMode type enabled w).world).world.channel =
      (self.setMode type enabled w).world.channel := by
  show (self.setMode type enabled (self.setMode type enabled w).world).world.channel = _
  funext q
  have hv1 := setMode_value self type enabled w q
  have ha1 := setMode_access self type enabled w q
  apply channel_eq
  · rw [setMode_access]
  · rw [setMode_value]
    cases hp : policyValue type enabled with
    | none => rfl
    | some v =>
      rw [hp] at hv1
      simp only [] at hv1 ⊢
      rw [ha1]
      by_cases hc : (q = CPU_CLUST0_GOV_PATH ∨ q = CPU_CLUST1_GOV_PATH) ∧
          (w.channel q).access = Access.writable
      · rw [if_pos hc, hv1, if_pos hc]
      · rw [if_neg hc]

/-! ## Platform recognition -/

/-- C15. From an unresolved mode mask, detection stores the masks `0x3FFF` and `0x003F` exactly
when the identifier is the string `rk3399`: the bounded comparison returns zero exactly on
that C string (which for a NUL-free identifier is the identifier itself), and the empty
identifier, `rk339`, `rk3399pro`, `RK3399` and `rk3326` all leave both masks as they were. -/
theorem C15_resolves_exactly_on_rk3399 (self : Power) (w : World)
    (hneg : self._mode_support_int < 0) :
    (strncmp (property_get w.hardware) (cstr "rk3399") PROPERTY_VALUE_MAX = 0 ↔
      cstring w.hardware = cstr "rk3399") ∧
    ((∀ c ∈ w.hardware, c ≠ 0) → cstring w.hardware = w.hardware) ∧
    ((self.getSupportedPlatform w).1 =
        { _mode_support_int := 0x3FFF, _boost_support_int := 0x003F } ↔
      cstring w.hardware = cstr "rk3399") ∧
    (cstring w.hardware ≠ cstr "rk3399" → (self.getSupportedPlatform w).1 = self) ∧
    (∀ v ∈ [cstr "", cstr "rk339", cstr "rk3399pro", cstr "RK3399", cstr "rk3326"],
      w.hardware = v → (self.getSupportedPlatform w).1 = self) := by
  refine ⟨strncmp_property_get w.hardware, cstring_of_no_nul w.hardware, ?_, ?_, ?_⟩
  · constructor
    · intro h
      by_contra hp
      rw [getSupportedPlatform_unrecognized self w hneg hp] at h
      have h' : self = { _mode_support_int := 0x3FFF, _boost_support_int := 0x003F } := h
      rw [h'] at hneg
      exact absurd hneg (by decide)
    · intro hp
      rw [getSupportedPlatform_rk3399 self w hneg hp]
  · intro hp
    rw [getSupportedPlatform_unrecognized self w hneg hp]
  · intro v hv hw
    have hp : cstring w.hardware ≠ cstr "rk3399" := by
      rw [hw]
      simp only [List.mem_cons, List.mem_singleton, List.not_mem_nil, or_false] at hv
      rcases hv with rfl | rfl | rfl | rfl | rfl <;> decide
    rw [getSupportedPlatform_unrecognized self w hneg hp]

/-- C15 (witness). From the sentinel `-1`, the identifier `rk3399pro` leaves the masks. -/
theorem C15_witness :
    Power.unresolved._mode_support_int < 0 ∧
    (Power.unresolved.getSupportedPlatform (bootWorld (cstr "rk3399pro"))).1 =
      Power.unresolved :=
  ⟨by decide,
    (C15_resolves_exactly_on_rk3399 Power.unresolved (bootWorld (cstr "rk3399pro"))
      (by decide)).2.2.2.2 (cstr "rk3399pro") (by decide) rfl⟩

/-! ## Shape of the writes -/

/-- C16. A `setMode` call either invokes no `sysfs_write` and leaves every channel as it was,
or invokes it exactly twice with one value from performance, powersave, interactive, for
cluster 0 first and cluster 1 second; in the second case, when both channels exist and are
writable, both `write` calls are performed and both channels hold that value afterwards. -/
theorem C16_one_value_to_both_clusters (self : Power) (type : Mode) (enabled : Bool)
    (w : World) :
    ((self.setMode type enabled w).world.requests = w.requests ∧
      (self.setMode type enabled w).world.channel = w.channel) ∨
    (∃ v : String, (v = "performance" ∨ v = "powersave" ∨ v = "interactive") ∧
      (self.setMode type enabled w).world.requests =
        w.requests ++ [(CPU_CLUST0_GOV_PATH, v), (CPU_CLUST1_GOV_PATH, v)] ∧
      ((w.channel CPU_CLUST0_GOV_PATH).access = Access.writable →
        (w.channel CPU_CLUST1_GOV_PATH).access = Access.writable →
        (self.setMode type enabled w).world.writes =
          w.writes ++ [(CPU_CLUST0_GOV_PATH, v), (CPU_CLUST1_GOV_PATH, v)] ∧
        ((self.setMode type enabled w).world.channel CPU_CLUST0_GOV_PATH).value = v ∧
        ((self.setMode type enabled w).world.channel CPU_CLUST1_GOV_PATH).value = v ∧
        ((self.setMode type enabled w).world.channel CPU_CLUST0_GOV_PATH).value =
          ((self.setMode type enabled w).world.channel CPU_CLUST1_GOV_PATH).value)) := by
  obtain ⟨t, u, h⟩ := setMode_world self type enabled w
  have hv0 := setMode_value self type enabled w CPU_CLUST0_GOV_PATH
  have hv1 := setMode_value self type enabled w CPU_CLUST1_GOV_PATH
  cases hp : policyValue type enabled with
  | none =>
    left
    rw [hp] at h
    rw [h]
    exact ⟨rfl, rfl⟩
  | some v =>
    right
    rw [hp] at h hv0 hv1
    refine ⟨v, policyValue_mem type enabled v hp, ?_, ?_⟩
    · rw [h]; simp
    · intro h0 h1
      simp only [h0, h1, true_or, or_true, and_self, if_true] at hv0 hv1
      refine ⟨?_, hv0, hv1, hv0.trans hv1.symm⟩
      rw [h]
      simp [sysfs_write_writes, h0, h1, Access.opens]

/-- C16 (witness). In the boot world both channels are writable and `setMode(LAUNCH, true)`
invokes `sysfs_write`, so afterwards the two channels hold equal contents. -/
theorem C16_witness :
    (((bootWorld []).channel CPU_CLUST0_GOV_PATH).access = Access.writable ∧
      ((bootWorld []).channel CPU_CLUST1_GOV_PATH).access = Access.writable) ∧
    ((Power.unresolved.setMode Mode.LAUNCH true (bootWorld [])).world.channel
        CPU_CLUST0_GOV_PATH).value =
      ((Power.unresolved.setMode Mode.LAUNCH true (bootWorld [])).world.channel
        CPU_CLUST1_GOV_PATH).value :=
  ⟨⟨by decide, by decide⟩,
    (C16_one_value_to_both_clusters Power.unresolved Mode.LAUNCH true (bootWorld [])).elim
      (fun h => absurd h.1 (by decide))
      (fun ⟨_, _, _, h⟩ => (h (by decide) (by decide)).2.2.2)⟩

/-! ## Invariants of the cache and separation of commands from queries -/

/-- C17. From a constructed state with both masks negative, after any finite sequence of the
four operations, under any identifier values, the mask pair is the initial pair or exactly
`0x3FFF`, `0x003F`; so the mode mask is negative exactly when the boost mask is; and once the
pair is `0x3FFF`, `0x003F`, it stays so under every continuation of the run. -/
theorem C17_mask_pair_invariant (self : Power) (w : World)
    (hm : self._mode_support_int < 0) (hb : self._boost_support_int < 0)
    (es : List (List Nat × Call)) :
    ((self.run w es).2.1 = self ∨
      (self.run w es).2.1 = { _mode_support_int := 0x3FFF, _boost_support_int := 0x003F }) ∧
    ((self.run w es).2.1._mode_support_int < 0 ↔ (self.run w es).2.1._boost_support_int < 0) ∧
    (∀ es2 : List (List Nat × Call),
      (self.run w es).2.1 = { _mode_support_int := 0x3FFF, _boost_support_int := 0x003F } →
      (self.run w (es ++ es2)).2.1 =
        { _mode_support_int := 0x3FFF, _boost_support_int := 0x003F }) := by
  have hc := run_fst_cases self es self w (Or.inl rfl)
  refine ⟨hc, ?_, ?_⟩
  · rcases hc with h | h
    · rw [h]; exact ⟨fun _ => hb, fun _ => hm⟩
    · rw [h]; decide
  · intro es2 h
    rw [run_append, h]
    exact (run_resolved _ (show (0 : Int) ≤ 0x3FFF by decide) es2 es2 _ w rfl).2.1

/-- C17 (witness). From the sentinel pair `-1`, `-1`: a query on an unknown platform, a command,
and a query on `rk3399`. -/
theorem C17_witness :
    (Power.unresolved._mode_support_int < 0 ∧ Power.unresolved._boost_support_int < 0) ∧
    ((Power.unresolved.run (bootWorld [])
        [(cstr "rk3326", Call.isModeSupported Mode.VR), ([], Call.setMode Mode.LAUNCH true),
          (cstr "rk3399", Call.isBoostSupported Boost.ML_ACC)]).2.1 = Power.unresolved ∨
      (Power.unresolved.run (bootWorld [])
        [(cstr "rk3326", Call.isModeSupported Mode.VR), ([], Call.setMode Mode.LAUNCH true),
          (cstr "rk3399", Call.isBoostSupported Boost.ML_ACC)]).2.1 =
        { _mode_support_int := 0x3FFF, _boost_support_int := 0x003F }) :=
  ⟨⟨by decide, by decide⟩,
    (C17_mask_pair_invariant Power.unresolved (bootWorld []) (by decide) (by decide) _).1⟩

/-- C18. `setMode` keeps the masks and reads no property, and what it does to the control
surface (the `sysfs_write`, `open` and `write` traces and every channel) is the same for any
other mask pair and any other identifier value, namely the policy table's writes; the queries
leave the traces and every channel as they were. -/
theorem C18_commands_and_queries_are_separate (self self' : Power) (w : World)
    (hardware : List Nat) (type : Mode) (enabled : Bool) (boost : Boost) :
    (self.setMode type enabled w).self = self ∧
    (self.setMode type enabled w).world.propertyReads = w.propertyReads ∧
    (self'.setMode type enabled { w with hardware := hardware }).world.requests =
      (self.setMode type enabled w).world.requests ∧
    (self'.setMode type enabled { w with hardware := hardware }).world.opens =
      (self.setMode type enabled w).world.opens ∧
    (self'.setMode type enabled { w with hardware := hardware }).world.writes =
      (self.setMode type enabled w).world.writes ∧
    (self'.setMode type enabled { w with hardware := hardware }).world.channel =
      (self.setMode type enabled w).world.channel ∧
    (self'.setMode type enabled { w with hardware := hardware }).world.requests =
      w.requests ++ policyWrites type enabled ∧
    (self.isModeSupported type w).world.sameSurface w ∧
    (self.isBoostSupported boost w).world.sameSurface w := by
  have hs := setMode_sameSurface self' self type enabled { w with hardware := hardware } w
    ⟨rfl, rfl, rfl, rfl⟩
  obtain ⟨hc, hr, ho, hw⟩ := hs
  refine ⟨rfl, setMode_propertyReads self type enabled w, hr, ho, hw, hc, ?_, ?_, ?_⟩
  · obtain ⟨t, u, h⟩ := setMode_world self' type enabled { w with hardware := hardware }
    rw [h]
    unfold policyWrites
    cases policyValue type enabled <;> simp
  · exact sameSurface_trans _ _ _ (getSupportedPlatform_sameSurface self _)
      (emit_sameSurface w _ _)
  · exact sameSurface_trans _ _ _ (getSupportedPlatform_sameSurface self _)
      (emit_sameSurface w _ _)

end Rockchip
